import Mathlib

/-!
Verification of the Primary_Battery_Runtime repository.

The repository holds two Python programs:
  * `battery_runtime_app.py`    — the chemistry-generalized calculator (`GenApp` below);
  * `lithium_battery_runtime_app.py` — the lithium-only calculator (`LiApp` below).

Real-number arithmetic of the source (Python floats) is modelled over `ℚ`.
Python's `round(x, n)` (round-half-to-even to `n` decimal places) is modelled
by `pyRound`.  A Python method that can raise (division by zero, a failed
table lookup) is modelled as returning `Option`/`Except`, with `none`/`error`
standing for the raised exception.

The temperature-factor reference curves live in an Excel workbook that is not
part of the repository; following §6 of the spec they are modelled as an
abstract `lookupCurve`-style parameter: a list of (temperature, factor)
sample points, sorted by descending temperature, keyed by chemistry and (in
the generalized variant) by the discharge-mode current limit.
-/

/-- Python's `round` to an integer: round half to even (banker's rounding). -/
def pyRoundInt (q : ℚ) : ℤ :=
  if q - ⌊q⌋ < 1/2 then ⌊q⌋
  else if (1:ℚ)/2 < q - ⌊q⌋ then ⌊q⌋ + 1
  else if ⌊q⌋ % 2 = 0 then ⌊q⌋ else ⌊q⌋ + 1

/-- Python's `round(q, n)`: round half to even at `n` decimal places. -/
def pyRound (n : ℕ) (q : ℚ) : ℚ :=
  (pyRoundInt (q * (10:ℚ)^n) : ℚ) / (10:ℚ)^n

/-- The discharge-mode classification of `battery_runtime_app.py`
(`"Low"`, `"Medium"`, `"High"`). -/
inductive Mode where
  | Low : Mode
  | Medium : Mode
  | High : Mode
deriving DecidableEq, Repr

/-- The battery chemistry of `battery_runtime_app.py`
(`"Lithium Metal"` or `"Alkaline"`). -/
inductive BType where
  | LithiumMetal : BType
  | Alkaline : BType
deriving DecidableEq, Repr

/-- Minimum operating temperature resolved by
`update_battery_properties` for each chemistry. -/
def chem_min : BType → ℚ
  | BType.LithiumMetal => -40
  | BType.Alkaline => -18

/-- Maximum operating temperature resolved by
`update_battery_properties` for each chemistry. -/
def chem_max : BType → ℚ
  | BType.LithiumMetal => 60
  | BType.Alkaline => 55

/-- Maximum shelf life (years) resolved by
`update_battery_properties` for each chemistry. -/
def chem_shelf : BType → ℚ
  | BType.LithiumMetal => 25
  | BType.Alkaline => 10

/-- The interpolation loop shared by both variants: scan adjacent sample
pairs `(row, row+1)` of the descending-sorted curve; on the bracketing pair
with `temp < T(row)` and `temp ≥ T(row+1)` return
`f(row+1) + ((f(row) − f(row+1)) / (T(row) − T(row+1))) * (temp − T(row+1))`;
if the loop finds no bracket the Python function falls through and returns
`None` (modelled `none`). -/
def interp_loop (temp : ℚ) : List (ℚ × ℚ) → Option ℚ
  | p2 :: p1 :: rest =>
    if temp < p2.1 ∧ p1.1 ≤ temp then
      some (p1.2 + ((p2.2 - p1.2) / (p2.1 - p1.1)) * (temp - p1.1))
    else interp_loop temp (p1 :: rest)
  | _ => none

namespace GenApp

/-- The state of a `Battery` instance of `battery_runtime_app.py`.
Fields that Python initializes to `None` (and the attributes that a raised
exception can leave unset) are `Option`-valued. -/
structure BState where
  battery_type : BType
  battery_capacity : ℚ
  operating_temp : ℚ
  load_current : ℚ
  load_duration_per_day : ℚ
  sleep_current : ℚ
  sleep_duration_per_day : Option ℚ
  average_current_draw : ℚ
  self_discharge_rate : ℚ
  max_shelf_life : ℚ
  min_operating_temp : ℚ
  max_operating_temp : ℚ
  temperature_factor : Option ℚ
  effective_battery_capacity : Option ℚ
  battery_runtime : Option ℚ
  current_discharge_mode : Option Mode
  low_current_discharge : ℚ
  medium_current_discharge : ℚ
  high_current_discharge : ℚ
deriving DecidableEq, Repr

/-- `Battery.__init__` of `battery_runtime_app.py`, for already-accepted
numeric parameter values. -/
def mkBattery (bt : BType) (cap temp load dur sleep : ℚ) : BState :=
  { battery_type := bt
    battery_capacity := cap
    operating_temp := temp
    load_current := load
    load_duration_per_day := dur
    sleep_current := sleep
    sleep_duration_per_day := none
    average_current_draw := 0
    self_discharge_rate := 1/100
    max_shelf_life := 25
    min_operating_temp := -40
    max_operating_temp := 60
    temperature_factor := none
    effective_battery_capacity := none
    battery_runtime := none
    current_discharge_mode := none
    low_current_discharge := 25
    medium_current_discharge := 250
    high_current_discharge := 1000 }

/-- `Battery.update_current_discharge_mode` of `battery_runtime_app.py`. -/
def update_current_discharge_mode (s : BState) : Mode :=
  if s.average_current_draw ≤ s.low_current_discharge then Mode.Low
  else if s.average_current_draw ≤ s.medium_current_discharge then Mode.Medium
  else Mode.High

/-- `Battery.calculate_temperature_factor` of `battery_runtime_app.py`.
`curve` is the (chemistry, discharge-limit)-selected rows of the external
workbook, sorted by descending temperature.  `none` models an exception
escaping the lookup (`df.loc[0, …]` on an empty frame) or the loop falling
through and returning Python `None`. -/
def calculate_temperature_factor (curve : List (ℚ × ℚ)) (minT maxT temp : ℚ) :
    Option ℚ :=
  if temp < minT ∨ temp > maxT then some 0
  else if temp = maxT then curve.head?.map Prod.snd
  else interp_loop temp curve

/-- `Battery.calculate_runtime` of `battery_runtime_app.py`:
zero-effective-capacity guard, daily-consumption sum, division, shelf-life
clamp, then `round(…, 2)`.  `none` models the `ZeroDivisionError` branch. -/
def calculate_runtime (eff load dur sleep sdur rate shelf : ℚ) : Option ℚ :=
  if eff = 0 then some 0
  else
    let total := load * (dur / 3600) + sleep * (sdur / 3600) + rate * eff / 365
    if total = 0 then none
    else
      let rt := eff / total
      let rtClamped := if rt / 365 ≥ shelf then shelf * 365 else rt
      some (pyRound 2 rtClamped)

/-- `Battery.update_battery_properties` of `battery_runtime_app.py`.
`curves` abstracts the external workbook (spec §6 `lookupCurve`): chemistry
and discharge mode select a descending-temperature sample list.  The second
component is the Python return value: `some 0` on success, `none` when an
exception escapes (the state component keeps every attribute assigned before
the raise). -/
def update_battery_properties (curves : BType → Mode → List (ℚ × ℚ))
    (s : BState) : BState × Option ℤ :=
  let s1 : BState :=
    { s with min_operating_temp := -40, max_operating_temp := 60, max_shelf_life := 25 }
  let s2 : BState :=
    if s1.battery_type = BType.Alkaline then
      { s1 with min_operating_temp := -18, max_operating_temp := 55, max_shelf_life := 10 }
    else s1
  let sd := 86400 - s2.load_duration_per_day
  let s3 : BState := { s2 with sleep_duration_per_day := some sd }
  let avg := pyRound 3 (s3.load_current * s3.load_duration_per_day / 86400 +
    s3.sleep_current * sd / 86400)
  let s4 : BState := { s3 with average_current_draw := avg }
  let mode := update_current_discharge_mode s4
  let s5 : BState := { s4 with current_discharge_mode := some mode }
  let tf := calculate_temperature_factor (curves s5.battery_type mode)
    s5.min_operating_temp s5.max_operating_temp s5.operating_temp
  let s6 : BState := { s5 with temperature_factor := tf }
  match tf with
  | none => (s6, none)
  | some f =>
    let eff := f * s6.battery_capacity
    let s7 : BState := { s6 with effective_battery_capacity := some eff }
    match calculate_runtime eff s6.load_current s6.load_duration_per_day
        s6.sleep_current sd s6.self_discharge_rate s6.max_shelf_life with
    | none => (s7, none)
    | some rt => ({ s7 with battery_runtime := some rt }, some 0)

end GenApp

namespace LiApp

/-- The state of a `Battery` instance of `lithium_battery_runtime_app.py`. -/
structure BState where
  battery_capacity : ℚ
  operating_temp : ℚ
  load_current : ℚ
  load_duration_per_day : ℚ
  sleep_current : ℚ
  sleep_duration_per_day : Option ℚ
  self_discharge_rate : ℚ
  max_shelf_life : ℚ
  min_operating_temp : ℚ
  max_operating_temp : ℚ
  temperature_factor : Option ℚ
  effective_battery_capacity : Option ℚ
  battery_runtime : Option ℚ
deriving DecidableEq, Repr

/-- `Battery.__init__` of `lithium_battery_runtime_app.py`, for
already-accepted numeric parameter values. -/
def mkBattery (cap temp load dur sleep : ℚ) : BState :=
  { battery_capacity := cap
    operating_temp := temp
    load_current := load
    load_duration_per_day := dur
    sleep_current := sleep
    sleep_duration_per_day := none
    self_discharge_rate := 1/100
    max_shelf_life := 25
    min_operating_temp := -40
    max_operating_temp := 60
    temperature_factor := none
    effective_battery_capacity := none
    battery_runtime := none }

/-- `Battery.calculate_temperature_factor` of
`lithium_battery_runtime_app.py`: out-of-range gives 0, any temperature
`≥ −10` gives the flat factor 1, otherwise linear interpolation over the
external curve. -/
def calculate_temperature_factor (curve : List (ℚ × ℚ)) (minT maxT temp : ℚ) :
    Option ℚ :=
  if temp < minT ∨ temp > maxT then some 0
  else if temp ≥ -10 then some 1
  else interp_loop temp curve

/-- `Battery.calculate_runtime` of `lithium_battery_runtime_app.py`: no
zero-capacity guard and no rounding; `none` models the `ZeroDivisionError`
raised when the total daily consumption is zero. -/
def calculate_runtime (eff load dur sleep sdur rate shelf : ℚ) : Option ℚ :=
  let total := load * (dur / 3600) + sleep * (sdur / 3600) + rate * eff / 365
  if total = 0 then none
  else
    let rt := eff / total
    some (if rt / 365 ≥ shelf then shelf * 365 else rt)

/-- `Battery.update_battery_properties` of `lithium_battery_runtime_app.py`.
The second component is the Python return value: `some 0` on success,
`none` when an exception escapes. -/
def update_battery_properties (curve : List (ℚ × ℚ)) (s : BState) :
    BState × Option ℤ :=
  let sd := 86400 - s.load_duration_per_day
  let s1 : BState := { s with sleep_duration_per_day := some sd }
  let tf := calculate_temperature_factor curve s1.min_operating_temp
    s1.max_operating_temp s1.operating_temp
  let s2 : BState := { s1 with temperature_factor := tf }
  match tf with
  | none => (s2, none)
  | some f =>
    let eff := f * s2.battery_capacity
    let s3 : BState := { s2 with effective_battery_capacity := some eff }
    match calculate_runtime eff s2.load_current s2.load_duration_per_day
        s2.sleep_current sd s2.self_discharge_rate s2.max_shelf_life with
    | none => (s3, none)
    | some rt => ({ s3 with battery_runtime := some rt }, some 0)

end LiApp

namespace PyM

/-- Python values reaching the property setters: an `int`, a `float`
(modelled over `ℚ`) or a `str`. -/
inductive PyVal where
  | vint : ℤ → PyVal
  | vfloat : ℚ → PyVal
  | vstr : String → PyVal
deriving DecidableEq, Repr

/-- `isinstance(value, int) or isinstance(value, float)`. -/
def is_number : PyVal → Bool
  | PyVal.vint _ => true
  | PyVal.vfloat _ => true
  | PyVal.vstr _ => false

/-- The numeric value of an `int` or `float` (only read behind an
`is_number` guard, mirroring Python's short-circuit `and`). -/
def num_val : PyVal → ℚ
  | PyVal.vint n => (n : ℚ)
  | PyVal.vfloat q => q
  | PyVal.vstr _ => 0

/-- Constraint of the `battery_type` setter: membership in
`["Lithium Metal", "Alkaline"]`. -/
def valid_battery_type (v : PyVal) : Bool :=
  decide (v = PyVal.vstr "Lithium Metal" ∨ v = PyVal.vstr "Alkaline")

/-- Constraint of the generalized `battery_capacity` setter:
`isinstance(value, int) and value >= 0`. -/
def valid_battery_capacity : PyVal → Bool
  | PyVal.vint n => decide (0 ≤ n)
  | _ => false

/-- Constraint of the lithium-only `battery_capacity` setter:
`isinstance(value, int) and value > 0`. -/
def valid_battery_capacity_li : PyVal → Bool
  | PyVal.vint n => decide (0 < n)
  | _ => false

/-- Constraint of the `operating_temp` setter: any `int` or `float`. -/
def valid_operating_temp (v : PyVal) : Bool := is_number v

/-- Constraint of the `load_current` and `sleep_current` setters:
numeric and non-negative. -/
def valid_nonneg_current (v : PyVal) : Bool := is_number v && decide (0 ≤ num_val v)

/-- Constraint of the `load_duration_per_day` setter: numeric and in
`[0, 86400]`. -/
def valid_load_duration (v : PyVal) : Bool :=
  is_number v && (decide (0 ≤ num_val v) && decide (num_val v ≤ 86400))

/-- The `battery_type` setter: assign when valid, else leave the backing
field untouched (silent rejection). -/
def set_battery_type (old : Option PyVal) (v : PyVal) : Option PyVal :=
  if valid_battery_type v then some v else old

/-- The generalized `battery_capacity` setter. -/
def set_battery_capacity (old : Option PyVal) (v : PyVal) : Option PyVal :=
  if valid_battery_capacity v then some v else old

/-- The lithium-only `battery_capacity` setter. -/
def set_battery_capacity_li (old : Option PyVal) (v : PyVal) : Option PyVal :=
  if valid_battery_capacity_li v then some v else old

/-- The `operating_temp` setter. -/
def set_operating_temp (old : Option PyVal) (v : PyVal) : Option PyVal :=
  if valid_operating_temp v then some v else old

/-- The `load_current` setter. -/
def set_load_current (old : Option PyVal) (v : PyVal) : Option PyVal :=
  if valid_nonneg_current v then some v else old

/-- The `load_duration_per_day` setter. -/
def set_load_duration_per_day (old : Option PyVal) (v : PyVal) : Option PyVal :=
  if valid_load_duration v then some v else old

/-- The `sleep_current` setter. -/
def set_sleep_current (old : Option PyVal) (v : PyVal) : Option PyVal :=
  if valid_nonneg_current v then some v else old

/-- The property-backed settable attributes of a generalized `Battery`
instance; `none` means the backing field was never created, so a read
raises `AttributeError`.  (The derived underscore attributes are assigned
unconditionally in `__init__` and can never be missing.) -/
structure PyBattery where
  battery_type : Option PyVal
  battery_capacity : Option PyVal
  operating_temp : Option PyVal
  load_current : Option PyVal
  load_duration_per_day : Option PyVal
  sleep_current : Option PyVal
deriving DecidableEq, Repr

/-- `Battery.__init__` of `battery_runtime_app.py` at the Python-value
level: each argument goes through its property setter starting from a
nonexistent backing field. -/
def mkBatteryPy (bt cap temp load dur sleep : PyVal) : PyBattery :=
  { battery_type := set_battery_type none bt
    battery_capacity := set_battery_capacity none cap
    operating_temp := set_operating_temp none temp
    load_current := set_load_current none load
    load_duration_per_day := set_load_duration_per_day none dur
    sleep_current := set_sleep_current none sleep }

/-- The settable attributes of a lithium-only `Battery` instance. -/
structure PyBatteryLi where
  battery_capacity : Option PyVal
  operating_temp : Option PyVal
  load_current : Option PyVal
  load_duration_per_day : Option PyVal
  sleep_current : Option PyVal
deriving DecidableEq, Repr

/-- `Battery.__init__` of `lithium_battery_runtime_app.py` at the
Python-value level. -/
def mkBatteryLiPy (cap temp load dur sleep : PyVal) : PyBatteryLi :=
  { battery_capacity := set_battery_capacity_li none cap
    operating_temp := set_operating_temp none temp
    load_current := set_load_current none load
    load_duration_per_day := set_load_duration_per_day none dur
    sleep_current := set_sleep_current none sleep }

/-- Reading a property: `AttributeError` (modelled `Except.error ()`) when
the backing field was never created. -/
def read_attr (o : Option PyVal) : Except Unit PyVal :=
  match o with
  | some v => Except.ok v
  | none => Except.error ()

/-- `Battery.battery_details` of `battery_runtime_app.py`, restricted to
the property-backed settable attributes it reads (in source order); the
first missing backing field aborts the dictionary construction with
`AttributeError`. -/
def battery_details (b : PyBattery) : Except Unit (List PyVal) :=
  match read_attr b.battery_type with
  | Except.error e => Except.error e
  | Except.ok bt =>
    match read_attr b.battery_capacity with
    | Except.error e => Except.error e
    | Except.ok cap =>
      match read_attr b.operating_temp with
      | Except.error e => Except.error e
      | Except.ok temp =>
        match read_attr b.load_current with
        | Except.error e => Except.error e
        | Except.ok load =>
          match read_attr b.load_duration_per_day with
          | Except.error e => Except.error e
          | Except.ok dur =>
            match read_attr b.sleep_current with
            | Except.error e => Except.error e
            | Except.ok sleep => Except.ok [bt, cap, temp, load, dur, sleep]

end PyM

/-- The average-current-draw expression assigned by
`GenApp.update_battery_properties` (reading the state before the call). -/
def gen_avg (s : GenApp.BState) : ℚ :=
  pyRound 3 (s.load_current * s.load_duration_per_day / 86400 +
    s.sleep_current * (86400 - s.load_duration_per_day) / 86400)

/-- The discharge mode `GenApp.update_battery_properties` stores. -/
def gen_mode (s : GenApp.BState) : Mode :=
  if gen_avg s ≤ s.low_current_discharge then Mode.Low
  else if gen_avg s ≤ s.medium_current_discharge then Mode.Medium
  else Mode.High

/-- The temperature factor `GenApp.update_battery_properties` computes. -/
def gen_tf (curves : BType → Mode → List (ℚ × ℚ)) (s : GenApp.BState) : Option ℚ :=
  GenApp.calculate_temperature_factor (curves s.battery_type (gen_mode s))
    (chem_min s.battery_type) (chem_max s.battery_type) s.operating_temp

/-- The runtime `GenApp.update_battery_properties` computes once the
temperature factor is `f`. -/
def gen_rt (s : GenApp.BState) (f : ℚ) : Option ℚ :=
  GenApp.calculate_runtime (f * s.battery_capacity) s.load_current
    s.load_duration_per_day s.sleep_current (86400 - s.load_duration_per_day)
    s.self_discharge_rate (chem_shelf s.battery_type)

/-- The temperature factor `LiApp.update_battery_properties` computes. -/
def li_tf (curve : List (ℚ × ℚ)) (s : LiApp.BState) : Option ℚ :=
  LiApp.calculate_temperature_factor curve s.min_operating_temp
    s.max_operating_temp s.operating_temp

/-- The runtime `LiApp.update_battery_properties` computes once the
temperature factor is `f`. -/
def li_rt (s : LiApp.BState) (f : ℚ) : Option ℚ :=
  LiApp.calculate_runtime (f * s.battery_capacity) s.load_current
    s.load_duration_per_day s.sleep_current (86400 - s.load_duration_per_day)
    s.self_discharge_rate s.max_shelf_life

/-- Modelled from the spec: the spec-side notion "the curve's sample value
at that exact temperature" — the factor of the first sample point whose
temperature equals `t` (the workbook itself is not in the repository). -/
def spec_sample_value (curve : List (ℚ × ℚ)) (t : ℚ) : Option ℚ :=
  (curve.find? (fun p => decide (p.1 = t))).map Prod.snd

/-- Modelled from the spec: a spec-conforming curve family (descending
temperatures, factors in `[0,1]`, first sample at the chemistry's maximum
operating temperature) on which raising the load current across the
Medium/High discharge-mode boundary selects a reference curve with a much
larger temperature factor. -/
def cexCurves : BType → Mode → List (ℚ × ℚ) := fun _ m =>
  match m with
  | Mode.Medium => [(60, 0), (-40, 0)]
  | _ => [(60, 1), (-40, 1)]

/-- Modelled from the spec: a flat spec-conforming curve family (factor 1
everywhere in range), used to instantiate universally quantified theorems. -/
def constCurves : BType → Mode → List (ℚ × ℚ) := fun _ _ => [(60, 1), (-40, 1)]

-- ------------------------------------------------------------------
-- Helper lemmas
-- ------------------------------------------------------------------

theorem le_pyRoundInt (q : ℚ) : ⌊q⌋ ≤ pyRoundInt q := by
  unfold pyRoundInt
  split
  · exact le_rfl
  · split
    · omega
    · split
      · exact le_rfl
      · omega

theorem pyRoundInt_le (q : ℚ) : pyRoundInt q ≤ ⌊q⌋ + 1 := by
  unfold pyRoundInt
  split
  · omega
  · split
    · exact le_rfl
    · split
      · omega
      · exact le_rfl

theorem pyRoundInt_eq_floor_of_lt {q : ℚ} (h : q - ⌊q⌋ < 1/2) :
    pyRoundInt q = ⌊q⌋ := by
  unfold pyRoundInt
  rw [if_pos h]

theorem pyRoundInt_eq_of_gt {q : ℚ} (h : (1:ℚ)/2 < q - ⌊q⌋) :
    pyRoundInt q = ⌊q⌋ + 1 := by
  unfold pyRoundInt
  rw [if_neg (by linarith), if_pos h]

theorem pyRoundInt_mono {a b : ℚ} (h : a ≤ b) : pyRoundInt a ≤ pyRoundInt b := by
  have hf : ⌊a⌋ ≤ ⌊b⌋ := Int.floor_le_floor h
  rcases lt_or_eq_of_le hf with hlt | heq
  · calc pyRoundInt a ≤ ⌊a⌋ + 1 := pyRoundInt_le a
      _ ≤ ⌊b⌋ := by omega
      _ ≤ pyRoundInt b := le_pyRoundInt b
  · by_cases ha1 : a - (⌊a⌋ : ℚ) < 1/2
    · have ea := pyRoundInt_eq_floor_of_lt ha1
      have hb := le_pyRoundInt b
      omega
    · by_cases hb2 : (1:ℚ)/2 < b - (⌊b⌋ : ℚ)
      · have eb := pyRoundInt_eq_of_gt hb2
        have ha := pyRoundInt_le a
        omega
      · have hcast : ((⌊a⌋ : ℚ)) = ((⌊b⌋ : ℚ)) := by exact_mod_cast heq
        push_neg at ha1 hb2
        have hab : a = b := by linarith
        rw [hab]

theorem pyRound_mono (n : ℕ) {a b : ℚ} (h : a ≤ b) : pyRound n a ≤ pyRound n b := by
  unfold pyRound
  have hp : (0:ℚ) < (10:ℚ)^n := by positivity
  rw [div_le_div_right hp]
  exact_mod_cast pyRoundInt_mono (mul_le_mul_of_nonneg_right h hp.le)

theorem shelf_clamp_mono {shelf a b : ℚ} (h : a ≤ b) :
    (if a / 365 ≥ shelf then shelf * 365 else a) ≤
      (if b / 365 ≥ shelf then shelf * 365 else b) := by
  split
  · split
    · exact le_rfl
    · rename_i ha hb
      have hb2 : b / 365 < shelf := not_le.mp hb
      linarith
  · split
    · rename_i ha hb
      have ha2 : a / 365 < shelf := not_le.mp ha
      linarith
    · exact h

theorem div_antitone_denom {a t1 t2 : ℚ} (ha : 0 ≤ a) (h1 : 0 < t1)
    (h12 : t1 ≤ t2) : a / t2 ≤ a / t1 := by
  have h2 : 0 < t2 := lt_of_lt_of_le h1 h12
  rw [div_le_div_iff h2 h1]
  exact mul_le_mul_of_nonneg_left h12 ha

theorem gen_update_eq (curves : BType → Mode → List (ℚ × ℚ)) (s : GenApp.BState) :
    GenApp.update_battery_properties curves s =
      (match gen_tf curves s with
       | none =>
         ({ s with
             min_operating_temp := chem_min s.battery_type,
             max_operating_temp := chem_max s.battery_type,
             max_shelf_life := chem_shelf s.battery_type,
             sleep_duration_per_day := some (86400 - s.load_duration_per_day),
             average_current_draw := gen_avg s,
             current_discharge_mode := some (gen_mode s),
             temperature_factor := gen_tf curves s }, none)
       | some f =>
         match gen_rt s f with
         | none =>
           ({ s with
               min_operating_temp := chem_min s.battery_type,
               max_operating_temp := chem_max s.battery_type,
               max_shelf_life := chem_shelf s.battery_type,
               sleep_duration_per_day := some (86400 - s.load_duration_per_day),
               average_current_draw := gen_avg s,
               current_discharge_mode := some (gen_mode s),
               temperature_factor := gen_tf curves s,
               effective_battery_capacity := some (f * s.battery_capacity) }, none)
         | some rt =>
           ({ s with
               min_operating_temp := chem_min s.battery_type,
               max_operating_temp := chem_max s.battery_type,
               max_shelf_life := chem_shelf s.battery_type,
               sleep_duration_per_day := some (86400 - s.load_duration_per_day),
               average_current_draw := gen_avg s,
               current_discharge_mode := some (gen_mode s),
               temperature_factor := gen_tf curves s,
               effective_battery_capacity := some (f * s.battery_capacity),
               battery_runtime := some rt }, some 0)) := by
  obtain ⟨bt, cap, temp, load, dur, sleep, sd0, avg0, rate, shelf, minT, maxT,
    tf0, effc0, brt0, mode0, lo, mid, hi⟩ := s
  cases bt <;>
    simp [GenApp.update_battery_properties, gen_tf, gen_mode, gen_avg, gen_rt,
      GenApp.update_current_discharge_mode, chem_min, chem_max, chem_shelf]

theorem li_update_eq (curve : List (ℚ × ℚ)) (s : LiApp.BState) :
    LiApp.update_battery_properties curve s =
      (match li_tf curve s with
       | none =>
         ({ s with
             sleep_duration_per_day := some (86400 - s.load_duration_per_day),
             temperature_factor := li_tf curve s }, none)
       | some f =>
         match li_rt s f with
         | none =>
           ({ s with
               sleep_duration_per_day := some (86400 - s.load_duration_per_day),
               temperature_factor := li_tf curve s,
               effective_battery_capacity := some (f * s.battery_capacity) }, none)
         | some rt =>
           ({ s with
               sleep_duration_per_day := some (86400 - s.load_duration_per_day),
               temperature_factor := li_tf curve s,
               effective_battery_capacity := some (f * s.battery_capacity),
               battery_runtime := some rt }, some 0)) := by
  obtain ⟨cap, temp, load, dur, sleep, sd0, rate, shelf, minT, maxT,
    tf0, effc0, brt0⟩ := s
  simp [LiApp.update_battery_properties, li_tf, li_rt]

theorem pyRoundInt_intCast (m : ℤ) : pyRoundInt (m : ℚ) = m := by
  unfold pyRoundInt
  rw [Int.floor_intCast]
  rw [if_pos]
  norm_num

theorem gen_runtime_antitone (shelf : ℚ) {eff l1 d1 c1 sd1 l2 d2 c2 sd2 : ℚ}
    (heff : 0 ≤ eff)
    (hb1 : 0 ≤ l1 * (d1 / 3600) + c1 * (sd1 / 3600))
    (h12 : l1 * (d1 / 3600) + c1 * (sd1 / 3600) ≤
      l2 * (d2 / 3600) + c2 * (sd2 / 3600)) :
    ∃ r1 r2,
      GenApp.calculate_runtime eff l1 d1 c1 sd1 (1/100) shelf = some r1 ∧
      GenApp.calculate_runtime eff l2 d2 c2 sd2 (1/100) shelf = some r2 ∧
      r2 ≤ r1 := by
  by_cases he : eff = 0
  · exact ⟨0, 0, by simp [GenApp.calculate_runtime, he],
      by simp [GenApp.calculate_runtime, he], le_rfl⟩
  · have hepos : 0 < eff := lt_of_le_of_ne heff (Ne.symm he)
    have hdisch : 0 < 1/100 * eff / 365 := by positivity
    have ht1 : 0 < l1 * (d1 / 3600) + c1 * (sd1 / 3600) + 1/100 * eff / 365 := by
      linarith
    have ht2 : 0 < l2 * (d2 / 3600) + c2 * (sd2 / 3600) + 1/100 * eff / 365 := by
      linarith
    have e1 : GenApp.calculate_runtime eff l1 d1 c1 sd1 (1/100) shelf =
        some (pyRound 2
          (if eff / (l1 * (d1 / 3600) + c1 * (sd1 / 3600) + 1/100 * eff / 365) / 365 ≥ shelf
           then shelf * 365
           else eff / (l1 * (d1 / 3600) + c1 * (sd1 / 3600) + 1/100 * eff / 365))) := by
      simp only [GenApp.calculate_runtime, if_neg he, if_neg (ne_of_gt ht1)]
    have e2 : GenApp.calculate_runtime eff l2 d2 c2 sd2 (1/100) shelf =
        some (pyRound 2
          (if eff / (l2 * (d2 / 3600) + c2 * (sd2 / 3600) + 1/100 * eff / 365) / 365 ≥ shelf
           then shelf * 365
           else eff / (l2 * (d2 / 3600) + c2 * (sd2 / 3600) + 1/100 * eff / 365))) := by
      simp only [GenApp.calculate_runtime, if_neg he, if_neg (ne_of_gt ht2)]
    exact ⟨_, _, e1, e2, pyRound_mono 2 (shelf_clamp_mono
      (div_antitone_denom heff ht1 (by linarith)))⟩

/-- C3: in both variants, whenever the unclamped quotient — effective
capacity divided by total daily consumption, divided by 365 — is at least
the maximum shelf life, `calculate_runtime` returns exactly
`max_shelf_life * 365` days: 9125 for LithiumMetal (shelf life 25) and
3650 for Alkaline (shelf life 10). -/
theorem c3_shelf_clamp_exact :
    (∀ eff load dur sleep sdur : ℚ,
      load * (dur / 3600) + sleep * (sdur / 3600) + 1/100 * eff / 365 ≠ 0 →
      eff / (load * (dur / 3600) + sleep * (sdur / 3600) + 1/100 * eff / 365) / 365 ≥ 25 →
      GenApp.calculate_runtime eff load dur sleep sdur (1/100) 25 = some 9125) ∧
    (∀ eff load dur sleep sdur : ℚ,
      load * (dur / 3600) + sleep * (sdur / 3600) + 1/100 * eff / 365 ≠ 0 →
      eff / (load * (dur / 3600) + sleep * (sdur / 3600) + 1/100 * eff / 365) / 365 ≥ 10 →
      GenApp.calculate_runtime eff load dur sleep sdur (1/100) 10 = some 3650) ∧
    (∀ eff load dur sleep sdur : ℚ,
      load * (dur / 3600) + sleep * (sdur / 3600) + 1/100 * eff / 365 ≠ 0 →
      eff / (load * (dur / 3600) + sleep * (sdur / 3600) + 1/100 * eff / 365) / 365 ≥ 25 →
      LiApp.calculate_runtime eff load dur sleep sdur (1/100) 25 = some 9125) := by
  refine ⟨?_, ?_, ?_⟩
  · intro eff load dur sleep sdur h1 h2
    by_cases he : eff = 0
    · rw [he] at h2
      simp only [zero_div] at h2
      norm_num at h2
    · simp only [GenApp.calculate_runtime, if_neg he, if_neg h1, if_pos h2]
      have e : ((25:ℚ) * 365) * 10^2 = ((912500 : ℤ) : ℚ) := by norm_num
      unfold pyRound
      rw [e, pyRoundInt_intCast]
      norm_num
  · intro eff load dur sleep sdur h1 h2
    by_cases he : eff = 0
    · rw [he] at h2
      simp only [zero_div] at h2
      norm_num at h2
    · simp only [GenApp.calculate_runtime, if_neg he, if_neg h1, if_pos h2]
      have e : ((10:ℚ) * 365) * 10^2 = ((365000 : ℤ) : ℚ) := by norm_num
      unfold pyRound
      rw [e, pyRoundInt_intCast]
      norm_num
  · intro eff load dur sleep sdur h1 h2
    simp only [LiApp.calculate_runtime, if_neg h1, if_pos h2]
    norm_num

/-- C5: for every settable parameter (battery_type, battery_capacity,
operating_temp, load_current, load_duration_per_day, sleep_current) that
already holds a value satisfying its constraint, assigning a value that
violates the constraint raises no error (the setters are total functions)
and leaves the field equal to its previous value.  The last conjunct covers
the lithium-only variant's strictly-positive capacity setter. -/
theorem c5_silent_setter_rejection :
    (∀ o v : PyM.PyVal, PyM.valid_battery_type o = true →
      PyM.valid_battery_type v = false → PyM.set_battery_type (some o) v = some o) ∧
    (∀ o v : PyM.PyVal, PyM.valid_battery_capacity o = true →
      PyM.valid_battery_capacity v = false → PyM.set_battery_capacity (some o) v = some o) ∧
    (∀ o v : PyM.PyVal, PyM.valid_operating_temp o = true →
      PyM.valid_operating_temp v = false → PyM.set_operating_temp (some o) v = some o) ∧
    (∀ o v : PyM.PyVal, PyM.valid_nonneg_current o = true →
      PyM.valid_nonneg_current v = false → PyM.set_load_current (some o) v = some o) ∧
    (∀ o v : PyM.PyVal, PyM.valid_load_duration o = true →
      PyM.valid_load_duration v = false → PyM.set_load_duration_per_day (some o) v = some o) ∧
    (∀ o v : PyM.PyVal, PyM.valid_nonneg_current o = true →
      PyM.valid_nonneg_current v = false → PyM.set_sleep_current (some o) v = some o) ∧
    (∀ o v : PyM.PyVal, PyM.valid_battery_capacity_li o = true →
      PyM.valid_battery_capacity_li v = false → PyM.set_battery_capacity_li (some o) v = some o) := by
  refine ⟨?_, ?_, ?_, ?_, ?_, ?_, ?_⟩ <;> intro o v ho hv <;>
    simp [PyM.set_battery_type, PyM.set_battery_capacity, PyM.set_operating_temp,
      PyM.set_load_current, PyM.set_load_duration_per_day, PyM.set_sleep_current,
      PyM.set_battery_capacity_li, hv]

theorem c5_witness :
    PyM.set_battery_type (some (PyM.PyVal.vstr "Alkaline")) (PyM.PyVal.vstr "NiMH") =
      some (PyM.PyVal.vstr "Alkaline") ∧
    PyM.set_battery_capacity (some (PyM.PyVal.vint 5)) (PyM.PyVal.vint (-1)) =
      some (PyM.PyVal.vint 5) ∧
    PyM.set_operating_temp (some (PyM.PyVal.vfloat 3)) (PyM.PyVal.vstr "hot") =
      some (PyM.PyVal.vfloat 3) ∧
    PyM.set_load_current (some (PyM.PyVal.vfloat 2)) (PyM.PyVal.vfloat (-2)) =
      some (PyM.PyVal.vfloat 2) ∧
    PyM.set_load_duration_per_day (some (PyM.PyVal.vint 600)) (PyM.PyVal.vint 90000) =
      some (PyM.PyVal.vint 600) ∧
    PyM.set_sleep_current (some (PyM.PyVal.vint 0)) (PyM.PyVal.vint (-1)) =
      some (PyM.PyVal.vint 0) ∧
    PyM.set_battery_capacity_li (some (PyM.PyVal.vint 5)) (PyM.PyVal.vint 0) =
      some (PyM.PyVal.vint 5) :=
  ⟨c5_silent_setter_rejection.1 _ _ (by decide) (by decide),
   c5_silent_setter_rejection.2.1 _ _ (by decide) (by decide),
   c5_silent_setter_rejection.2.2.1 _ _ (by decide) (by decide),
   c5_silent_setter_rejection.2.2.2.1 _ _ (by decide) (by decide),
   c5_silent_setter_rejection.2.2.2.2.1 _ _ (by decide) (by decide),
   c5_silent_setter_rejection.2.2.2.2.2.1 _ _ (by decide) (by decide),
   c5_silent_setter_rejection.2.2.2.2.2.2 _ _ (by decide) (by decide)⟩

/-- C7: when the operating temperature exactly equals the chemistry's
maximum, the generalized variant returns the factor of the first sample
point of the descending-sorted curve, which equals the curve's sample value
at that exact temperature whenever the first sample sits at the maximum;
the lithium-only variant returns 1 at its maximum of 60°C via the flat
branch. -/
theorem c7_max_temp_factor :
    (∀ (t0 f0 : ℚ) (rest : List (ℚ × ℚ)) (minT maxT : ℚ),
      minT ≤ maxT →
      GenApp.calculate_temperature_factor ((t0, f0) :: rest) minT maxT maxT = some f0 ∧
        (t0 = maxT → spec_sample_value ((t0, f0) :: rest) maxT = some f0)) ∧
    (∀ curve : List (ℚ × ℚ),
      LiApp.calculate_temperature_factor curve (-40) 60 60 = some 1) := by
  constructor
  · intro t0 f0 rest minT maxT hle
    constructor
    · unfold GenApp.calculate_temperature_factor
      rw [if_neg (by push_neg; exact ⟨hle, le_rfl⟩), if_pos rfl]
      rfl
    · intro ht
      subst ht
      simp [spec_sample_value]
  · intro curve
    unfold LiApp.calculate_temperature_factor
    norm_num

theorem c7_witness :
    GenApp.calculate_temperature_factor [((60:ℚ), (9:ℚ)/10)] (-40) 60 60 = some (9/10) ∧
    spec_sample_value [((60:ℚ), (9:ℚ)/10)] 60 = some (9/10) ∧
    LiApp.calculate_temperature_factor [] (-40) 60 60 = some 1 :=
  ⟨(c7_max_temp_factor.1 60 (9/10) [] (-40) 60 (by norm_num)).1,
   (c7_max_temp_factor.1 60 (9/10) [] (-40) 60 (by norm_num)).2 rfl,
   c7_max_temp_factor.2 []⟩

/-- C9: in the generalized variant, for non-negative capacity, currents,
durations and temperature factor, `calculate_runtime` never divides by
zero: when the effective capacity is 0 the guard returns 0 before the
division, and otherwise the self-discharge term `0.01 * eff / 365` makes
the total daily consumption strictly positive. -/
theorem c9_runtime_division_safe :
    ∀ f cap load dur sleep sdur shelf : ℚ,
      0 ≤ f → 0 ≤ cap → 0 ≤ load → 0 ≤ dur → 0 ≤ sleep → 0 ≤ sdur →
      (GenApp.calculate_runtime (f * cap) load dur sleep sdur (1/100) shelf).isSome = true ∧
        (f * cap ≠ 0 →
          0 < load * (dur / 3600) + sleep * (sdur / 3600) + 1/100 * (f * cap) / 365) := by
  intro f cap load dur sleep sdur shelf hf hcap hload hdur hsleep hsdur
  by_cases he : f * cap = 0
  · constructor
    · simp [GenApp.calculate_runtime, he]
    · intro h
      exact absurd he h
  · have hepos : 0 < f * cap := lt_of_le_of_ne (mul_nonneg hf hcap) (Ne.symm he)
    have hl : 0 ≤ load * (dur / 3600) := by positivity
    have hs : 0 ≤ sleep * (sdur / 3600) := by positivity
    have hd : 0 < 1/100 * (f * cap) / 365 := by positivity
    have htot : 0 < load * (dur / 3600) + sleep * (sdur / 3600) + 1/100 * (f * cap) / 365 := by
      linarith
    refine ⟨?_, fun _ => htot⟩
    simp only [GenApp.calculate_runtime, if_neg he, if_neg (ne_of_gt htot)]
    rfl

theorem c9_witness :
    (GenApp.calculate_runtime ((1:ℚ) * 100) 1 3600 0 82800 (1/100) 25).isSome = true ∧
      ((1:ℚ) * 100 ≠ 0 →
        0 < (1:ℚ) * (3600 / 3600) + 0 * (82800 / 3600) + 1/100 * (1 * 100) / 365) :=
  c9_runtime_division_safe 1 100 1 3600 0 82800 25 (by norm_num) (by norm_num)
    (by norm_num) (by norm_num) (by norm_num) (by norm_num)

/-- C10: a constructor argument violating its setter's constraint leaves
the backing field uncreated, so any subsequent read of that property —
directly or via `battery_details` — raises `AttributeError` instead of
returning a default or the rejected value; in the lithium-only variant even
capacity 0 is rejected (its setter requires a strictly positive integer). -/
theorem c10_invalid_constructor_attr :
    (∀ bt temp load dur sleep v : PyM.PyVal, PyM.valid_battery_capacity v = false →
      (PyM.mkBatteryPy bt v temp load dur sleep).battery_capacity = none ∧
        PyM.read_attr (PyM.mkBatteryPy bt v temp load dur sleep).battery_capacity =
          Except.error () ∧
        PyM.battery_details (PyM.mkBatteryPy bt v temp load dur sleep) =
          Except.error ()) ∧
    (∀ temp load dur sleep : PyM.PyVal,
      PyM.valid_battery_capacity_li (PyM.PyVal.vint 0) = false ∧
        (PyM.mkBatteryLiPy (PyM.PyVal.vint 0) temp load dur sleep).battery_capacity = none ∧
        PyM.read_attr
          (PyM.mkBatteryLiPy (PyM.PyVal.vint 0) temp load dur sleep).battery_capacity =
          Except.error ()) := by
  constructor
  · intro bt temp load dur sleep v hv
    have hcap : PyM.set_battery_capacity none v = none := by
      simp [PyM.set_battery_capacity, hv]
    refine ⟨hcap, by simp [PyM.mkBatteryPy, hcap, PyM.read_attr], ?_⟩
    cases hbt : PyM.set_battery_type none bt <;>
      simp [PyM.battery_details, PyM.mkBatteryPy, hbt, hcap, PyM.read_attr]
  · intro temp load dur sleep
    refine ⟨rfl, ?_, ?_⟩ <;>
      simp [PyM.mkBatteryLiPy, PyM.set_battery_capacity_li,
        PyM.valid_battery_capacity_li, PyM.read_attr]

theorem c10_witness :
    (PyM.mkBatteryPy (PyM.PyVal.vstr "Lithium Metal") (PyM.PyVal.vfloat 3)
      (PyM.PyVal.vint 20) (PyM.PyVal.vint 90) (PyM.PyVal.vint 3600)
      (PyM.PyVal.vint 0)).battery_capacity = none ∧
      PyM.read_attr (PyM.mkBatteryPy (PyM.PyVal.vstr "Lithium Metal")
        (PyM.PyVal.vfloat 3) (PyM.PyVal.vint 20) (PyM.PyVal.vint 90)
        (PyM.PyVal.vint 3600) (PyM.PyVal.vint 0)).battery_capacity = Except.error () ∧
      PyM.battery_details (PyM.mkBatteryPy (PyM.PyVal.vstr "Lithium Metal")
        (PyM.PyVal.vfloat 3) (PyM.PyVal.vint 20) (PyM.PyVal.vint 90)
        (PyM.PyVal.vint 3600) (PyM.PyVal.vint 0)) = Except.error () :=
  c10_invalid_constructor_attr.1 (PyM.PyVal.vstr "Lithium Metal") (PyM.PyVal.vint 20)
    (PyM.PyVal.vint 90) (PyM.PyVal.vint 3600) (PyM.PyVal.vint 0)
    (PyM.PyVal.vfloat 3) (by decide)

theorem pyRound_eval (n : ℕ) (q : ℚ) (m : ℤ) (h : q * (10:ℚ)^n = (m:ℚ)) :
    pyRound n q = (m:ℚ) / (10:ℚ)^n := by
  unfold pyRound
  rw [h, pyRoundInt_intCast]

theorem gen_update_mode (curves : BType → Mode → List (ℚ × ℚ)) (s : GenApp.BState) :
    (GenApp.update_battery_properties curves s).1.current_discharge_mode =
      some (gen_mode s) := by
  rw [gen_update_eq]
  rcases gen_tf curves s with _ | f
  · rfl
  · dsimp only
    rcases gen_rt s f with _ | rt <;> rfl

theorem gen_update_tf (curves : BType → Mode → List (ℚ × ℚ)) (s : GenApp.BState) :
    (GenApp.update_battery_properties curves s).1.temperature_factor =
      gen_tf curves s := by
  rw [gen_update_eq]
  rcases gen_tf curves s with _ | f
  · rfl
  · dsimp only
    rcases gen_rt s f with _ | rt <;> rfl

theorem gen_update_sleep (curves : BType → Mode → List (ℚ × ℚ)) (s : GenApp.BState) :
    (GenApp.update_battery_properties curves s).1.sleep_duration_per_day =
      some (86400 - s.load_duration_per_day) := by
  rw [gen_update_eq]
  rcases gen_tf curves s with _ | f
  · rfl
  · dsimp only
    rcases gen_rt s f with _ | rt <;> rfl

theorem gen_update_avg (curves : BType → Mode → List (ℚ × ℚ)) (s : GenApp.BState) :
    (GenApp.update_battery_properties curves s).1.average_current_draw = gen_avg s := by
  rw [gen_update_eq]
  rcases gen_tf curves s with _ | f
  · rfl
  · dsimp only
    rcases gen_rt s f with _ | rt <;> rfl

theorem gen_update_runtime_of (curves : BType → Mode → List (ℚ × ℚ))
    (s : GenApp.BState) {f r : ℚ} (hf : gen_tf curves s = some f)
    (hr : gen_rt s f = some r) :
    (GenApp.update_battery_properties curves s).1.battery_runtime = some r := by
  rw [gen_update_eq, hf]
  dsimp only
  rw [hr]

theorem gen_update_ret_of (curves : BType → Mode → List (ℚ × ℚ))
    (s : GenApp.BState) {f r : ℚ} (hf : gen_tf curves s = some f)
    (hr : gen_rt s f = some r) :
    (GenApp.update_battery_properties curves s).2 = some 0 := by
  rw [gen_update_eq, hf]
  dsimp only
  rw [hr]

theorem li_update_tf (curve : List (ℚ × ℚ)) (s : LiApp.BState) :
    (LiApp.update_battery_properties curve s).1.temperature_factor =
      li_tf curve s := by
  rw [li_update_eq]
  rcases li_tf curve s with _ | f
  · rfl
  · dsimp only
    rcases li_rt s f with _ | rt <;> rfl

theorem li_update_sleep (curve : List (ℚ × ℚ)) (s : LiApp.BState) :
    (LiApp.update_battery_properties curve s).1.sleep_duration_per_day =
      some (86400 - s.load_duration_per_day) := by
  rw [li_update_eq]
  rcases li_tf curve s with _ | f
  · rfl
  · dsimp only
    rcases li_rt s f with _ | rt <;> rfl

theorem li_update_runtime_of (curve : List (ℚ × ℚ)) (s : LiApp.BState)
    {f r : ℚ} (hf : li_tf curve s = some f) (hr : li_rt s f = some r) :
    (LiApp.update_battery_properties curve s).1.battery_runtime = some r := by
  rw [li_update_eq, hf]
  dsimp only
  rw [hr]

theorem li_update_ret_of (curve : List (ℚ × ℚ)) (s : LiApp.BState)
    {f r : ℚ} (hf : li_tf curve s = some f) (hr : li_rt s f = some r) :
    (LiApp.update_battery_properties curve s).2 = some 0 := by
  rw [li_update_eq, hf]
  dsimp only
  rw [hr]

theorem li_update_runtime_stuck (curve : List (ℚ × ℚ)) (s : LiApp.BState)
    {f : ℚ} (hf : li_tf curve s = some f) (hr : li_rt s f = none) :
    (LiApp.update_battery_properties curve s).1.battery_runtime =
      s.battery_runtime := by
  rw [li_update_eq, hf]
  dsimp only
  rw [hr]

theorem li_update_ret_stuck (curve : List (ℚ × ℚ)) (s : LiApp.BState)
    {f : ℚ} (hf : li_tf curve s = some f) (hr : li_rt s f = none) :
    (LiApp.update_battery_properties curve s).2 = none := by
  rw [li_update_eq, hf]
  dsimp only
  rw [hr]

/-- C8: in both variants, after every call to `update_battery_properties`,
the stored sleep duration is set and satisfies
`sleep_duration_per_day + load_duration_per_day = 86400`, for every load
duration in `[0, 86400]`. -/
theorem c8_sleep_plus_load_86400 :
    (∀ (curves : BType → Mode → List (ℚ × ℚ)) (s : GenApp.BState),
      0 ≤ s.load_duration_per_day → s.load_duration_per_day ≤ 86400 →
      ∃ sd, (GenApp.update_battery_properties curves s).1.sleep_duration_per_day = some sd ∧
        sd + s.load_duration_per_day = 86400) ∧
    (∀ (curve : List (ℚ × ℚ)) (s : LiApp.BState),
      0 ≤ s.load_duration_per_day → s.load_duration_per_day ≤ 86400 →
      ∃ sd, (LiApp.update_battery_properties curve s).1.sleep_duration_per_day = some sd ∧
        sd + s.load_duration_per_day = 86400) := by
  constructor
  · intro curves s h1 h2
    exact ⟨86400 - s.load_duration_per_day, gen_update_sleep curves s, by ring⟩
  · intro curve s h1 h2
    exact ⟨86400 - s.load_duration_per_day, li_update_sleep curve s, by ring⟩

theorem c8_witness :
    (∃ sd, (GenApp.update_battery_properties constCurves
        (GenApp.mkBattery BType.LithiumMetal 100 20 1 3600 0)).1.sleep_duration_per_day =
          some sd ∧ sd + (3600:ℚ) = 86400) ∧
    (∃ sd, (LiApp.update_battery_properties []
        (LiApp.mkBattery 100 20 1 3600 0)).1.sleep_duration_per_day =
          some sd ∧ sd + (3600:ℚ) = 86400) :=
  ⟨c8_sleep_plus_load_86400.1 constCurves
      (GenApp.mkBattery BType.LithiumMetal 100 20 1 3600 0)
      (by norm_num [GenApp.mkBattery]) (by norm_num [GenApp.mkBattery]),
   c8_sleep_plus_load_86400.2 [] (LiApp.mkBattery 100 20 1 3600 0)
      (by norm_num [LiApp.mkBattery]) (by norm_num [LiApp.mkBattery])⟩

/-- C6: in the generalized variant, after `update_battery_properties` the
average current draw equals
`load_current * load_duration / 86400 + sleep_current * sleep_duration / 86400`
rounded to 3 decimal places, and the discharge mode is Low when that
average is ≤ 25 mA, Medium when it is ≤ 250 mA, and High otherwise. -/
theorem c6_avg_draw_and_mode :
    ∀ (curves : BType → Mode → List (ℚ × ℚ)) (bt : BType) (cap temp load dur sleep : ℚ),
      (GenApp.update_battery_properties curves
        (GenApp.mkBattery bt cap temp load dur sleep)).1.average_current_draw =
          pyRound 3 (load * dur / 86400 + sleep * (86400 - dur) / 86400) ∧
      (GenApp.update_battery_properties curves
        (GenApp.mkBattery bt cap temp load dur sleep)).1.current_discharge_mode =
          some (if pyRound 3 (load * dur / 86400 + sleep * (86400 - dur) / 86400) ≤ 25
            then Mode.Low
            else if pyRound 3 (load * dur / 86400 + sleep * (86400 - dur) / 86400) ≤ 250
            then Mode.Medium
            else Mode.High) := by
  intro curves bt cap temp load dur sleep
  constructor
  · rw [gen_update_avg]
    rfl
  · rw [gen_update_mode]
    rfl

/-- C1 (amended): for every accepted input with the operating temperature
strictly below the chemistry's minimum or strictly above its maximum, after
`update_battery_properties` the temperature factor is 0 and the battery
runtime is 0 — unconditionally in the generalized variant; in the
lithium-only variant only when the load/sleep consumption is not zero
(otherwise the runtime division raises `ZeroDivisionError` and no runtime
is stored). -/
theorem c1_out_of_range_zero :
    (∀ (curves : BType → Mode → List (ℚ × ℚ)) (bt : BType) (cap temp load dur sleep : ℚ),
      0 ≤ cap → 0 ≤ load → 0 ≤ dur → dur ≤ 86400 → 0 ≤ sleep →
      (temp < chem_min bt ∨ temp > chem_max bt) →
      (GenApp.update_battery_properties curves
          (GenApp.mkBattery bt cap temp load dur sleep)).1.temperature_factor = some 0 ∧
        (GenApp.update_battery_properties curves
          (GenApp.mkBattery bt cap temp load dur sleep)).1.battery_runtime = some 0) ∧
    (∀ (curve : List (ℚ × ℚ)) (cap temp load dur sleep : ℚ),
      0 ≤ cap → 0 ≤ load → 0 ≤ dur → dur ≤ 86400 → 0 ≤ sleep →
      (temp < -40 ∨ temp > 60) →
      load * dur + sleep * (86400 - dur) ≠ 0 →
      (LiApp.update_battery_properties curve
          (LiApp.mkBattery cap temp load dur sleep)).1.temperature_factor = some 0 ∧
        (LiApp.update_battery_properties curve
          (LiApp.mkBattery cap temp load dur sleep)).1.battery_runtime = some 0) := by
  constructor
  · intro curves bt cap temp load dur sleep hcap hload hdur1 hdur2 hsleep hrange
    have htf : gen_tf curves (GenApp.mkBattery bt cap temp load dur sleep) = some 0 := by
      unfold gen_tf GenApp.calculate_temperature_factor
      simp only [GenApp.mkBattery]
      rw [if_pos hrange]
    have hrt : gen_rt (GenApp.mkBattery bt cap temp load dur sleep) 0 = some 0 := by
      unfold gen_rt GenApp.calculate_runtime
      simp only [GenApp.mkBattery]
      rw [if_pos (zero_mul cap)]
    exact ⟨(gen_update_tf curves _).trans htf,
      gen_update_runtime_of curves _ htf hrt⟩
  · intro curve cap temp load dur sleep hcap hload hdur1 hdur2 hsleep hrange hne
    have htf : li_tf curve (LiApp.mkBattery cap temp load dur sleep) = some 0 := by
      unfold li_tf LiApp.calculate_temperature_factor
      simp only [LiApp.mkBattery]
      rw [if_pos hrange]
    have hrt : li_rt (LiApp.mkBattery cap temp load dur sleep) 0 = some 0 := by
      unfold li_rt LiApp.calculate_runtime
      simp only [LiApp.mkBattery]
      have htotne :
          load * (dur / 3600) + sleep * ((86400 - dur) / 3600) + 1/100 * (0 * cap) / 365 ≠ 0 := by
        intro h0
        apply hne
        have h1 : (load * dur + sleep * (86400 - dur)) / 3600 = 0 := by
          rw [← h0]; ring
        have h2 := h1
        field_simp at h2
        linarith
      rw [if_neg htotne]
      norm_num
    exact ⟨(li_update_tf curve _).trans htf,
      li_update_runtime_of curve _ htf hrt⟩

/-- C1 counterexample: at the accepted lithium-only input
(capacity 100, temperature 70 °C > 60 °C, load 0 mA, load duration 86400 s,
sleep 0 mA) the temperature factor is indeed 0 but the runtime division
raises `ZeroDivisionError`, so no battery runtime is stored: the claim's
"computed battery runtime equals 0" fails for this variant. -/
theorem c1_counterexample :
    (LiApp.update_battery_properties []
        (LiApp.mkBattery 100 70 0 86400 0)).1.temperature_factor = some 0 ∧
      (LiApp.update_battery_properties []
        (LiApp.mkBattery 100 70 0 86400 0)).1.battery_runtime ≠ some 0 := by
  have htf : li_tf [] (LiApp.mkBattery 100 70 0 86400 0) = some 0 := by
    unfold li_tf LiApp.calculate_temperature_factor
    norm_num [LiApp.mkBattery]
  have hrt : li_rt (LiApp.mkBattery 100 70 0 86400 0) 0 = none := by
    unfold li_rt LiApp.calculate_runtime
    norm_num [LiApp.mkBattery]
  constructor
  · exact (li_update_tf _ _).trans htf
  · rw [li_update_runtime_stuck _ _ htf hrt]
    simp [LiApp.mkBattery]

theorem c1_witness :
    ((GenApp.update_battery_properties constCurves
        (GenApp.mkBattery BType.LithiumMetal 100 100 1 3600 0)).1.temperature_factor = some 0 ∧
      (GenApp.update_battery_properties constCurves
        (GenApp.mkBattery BType.LithiumMetal 100 100 1 3600 0)).1.battery_runtime = some 0) ∧
    ((LiApp.update_battery_properties []
        (LiApp.mkBattery 100 70 1 86400 0)).1.temperature_factor = some 0 ∧
      (LiApp.update_battery_properties []
        (LiApp.mkBattery 100 70 1 86400 0)).1.battery_runtime = some 0) :=
  ⟨c1_out_of_range_zero.1 constCurves BType.LithiumMetal 100 100 1 3600 0
      (by norm_num) (by norm_num) (by norm_num) (by norm_num) (by norm_num)
      (Or.inr (by norm_num [chem_max])),
   c1_out_of_range_zero.2 [] 100 70 1 86400 0
      (by norm_num) (by norm_num) (by norm_num) (by norm_num) (by norm_num)
      (Or.inr (by norm_num)) (by norm_num)⟩

/-- C2 (amended): `update_battery_properties` returns 0 whenever the
computation completes without an exception: in the generalized variant any
successful temperature-factor lookup with a non-negative factor suffices
(the zero-capacity guard excludes the division by zero), while in the
lithium-only variant the total daily consumption must additionally be
nonzero — when it is zero the runtime division raises `ZeroDivisionError`
and the call fails visibly instead of returning 0. -/
theorem c2_update_returns_zero :
    (∀ (curves : BType → Mode → List (ℚ × ℚ)) (bt : BType) (cap temp load dur sleep f : ℚ),
      0 ≤ cap → 0 ≤ load → 0 ≤ dur → dur ≤ 86400 → 0 ≤ sleep → 0 ≤ f →
      gen_tf curves (GenApp.mkBattery bt cap temp load dur sleep) = some f →
      (GenApp.update_battery_properties curves
        (GenApp.mkBattery bt cap temp load dur sleep)).2 = some 0) ∧
    (∀ (curve : List (ℚ × ℚ)) (cap temp load dur sleep f : ℚ),
      li_tf curve (LiApp.mkBattery cap temp load dur sleep) = some f →
      load * (dur / 3600) + sleep * ((86400 - dur) / 3600) + 1/100 * (f * cap) / 365 ≠ 0 →
      (LiApp.update_battery_properties curve
        (LiApp.mkBattery cap temp load dur sleep)).2 = some 0) := by
  constructor
  · intro curves bt cap temp load dur sleep f hcap hload hdur1 hdur2 hsleep hf htf
    obtain ⟨r, hr⟩ : ∃ r, gen_rt (GenApp.mkBattery bt cap temp load dur sleep) f = some r := by
      by_cases he : f * cap = 0
      · exact ⟨0, by simp [gen_rt, GenApp.calculate_runtime, GenApp.mkBattery, he]⟩
      · have hepos : 0 < f * cap := lt_of_le_of_ne (mul_nonneg hf hcap) (Ne.symm he)
        have h1 : 0 ≤ load * (dur / 3600) := by positivity
        have h2 : 0 ≤ sleep * ((86400 - dur) / 3600) :=
          mul_nonneg hsleep (div_nonneg (by linarith) (by norm_num))
        have h3 : 0 < 1/100 * (f * cap) / 365 := by positivity
        have htot : 0 <
            load * (dur / 3600) + sleep * ((86400 - dur) / 3600) + 1/100 * (f * cap) / 365 := by
          linarith
        have hs : (gen_rt (GenApp.mkBattery bt cap temp load dur sleep) f).isSome = true := by
          simp only [gen_rt, GenApp.calculate_runtime, GenApp.mkBattery]
          rw [if_neg he, if_neg (ne_of_gt htot)]
          rfl
        exact Option.isSome_iff_exists.mp hs
    exact gen_update_ret_of curves _ htf hr
  · intro curve cap temp load dur sleep f htf hne
    obtain ⟨r, hr⟩ : ∃ r, li_rt (LiApp.mkBattery cap temp load dur sleep) f = some r := by
      have hs : (li_rt (LiApp.mkBattery cap temp load dur sleep) f).isSome = true := by
        simp only [li_rt, LiApp.calculate_runtime, LiApp.mkBattery]
        rw [if_neg hne]
        rfl
      exact Option.isSome_iff_exists.mp hs
    exact li_update_ret_of curve _ htf hr

/-- C2 counterexample: at the accepted lithium-only input
(capacity 200, temperature −50 °C, load 0 mA, load duration 86400 s,
sleep 0 mA) the runtime computation divides by zero, the exception escapes
`update_battery_properties`, and the call does not return 0. -/
theorem c2_counterexample :
    (LiApp.update_battery_properties []
      (LiApp.mkBattery 200 (-50) 0 86400 0)).2 ≠ some 0 := by
  have htf : li_tf [] (LiApp.mkBattery 200 (-50) 0 86400 0) = some 0 := by
    unfold li_tf LiApp.calculate_temperature_factor
    norm_num [LiApp.mkBattery]
  have hrt : li_rt (LiApp.mkBattery 200 (-50) 0 86400 0) 0 = none := by
    unfold li_rt LiApp.calculate_runtime
    norm_num [LiApp.mkBattery]
  rw [li_update_ret_stuck _ _ htf hrt]
  simp

theorem pyRound_int (n : ℕ) (m : ℤ) : pyRound n (m:ℚ) = (m:ℚ) := by
  rw [pyRound_eval n (m:ℚ) (m * 10^n) (by push_cast; ring)]
  push_cast
  rw [mul_div_assoc, div_self (by positivity), mul_one]

theorem gen_tf_const_one (cap temp load dur sleep : ℚ) (h1 : -40 ≤ temp)
    (h2 : temp < 60) :
    gen_tf constCurves (GenApp.mkBattery BType.LithiumMetal cap temp load dur sleep) =
      some 1 := by
  unfold gen_tf GenApp.calculate_temperature_factor
  simp only [GenApp.mkBattery, constCurves, chem_min, chem_max]
  rw [if_neg (by push_neg; exact ⟨by linarith, by linarith⟩), if_neg (ne_of_lt h2)]
  unfold interp_loop
  rw [if_pos ⟨by norm_num [h2], by norm_num [h1]⟩]
  norm_num

theorem c2_witness :
    (GenApp.update_battery_properties constCurves
      (GenApp.mkBattery BType.LithiumMetal 100 20 1 86400 0)).2 = some 0 ∧
    (LiApp.update_battery_properties []
      (LiApp.mkBattery 100 20 1 86400 0)).2 = some 0 :=
  ⟨c2_update_returns_zero.1 constCurves BType.LithiumMetal 100 20 1 86400 0 1
      (by norm_num) (by norm_num) (by norm_num) (by norm_num) (by norm_num) (by norm_num)
      (gen_tf_const_one 100 20 1 86400 0 (by norm_num) (by norm_num)),
   c2_update_returns_zero.2 [] 100 20 1 86400 0 1
      (by unfold li_tf LiApp.calculate_temperature_factor
          norm_num [LiApp.mkBattery])
      (by norm_num)⟩

/-- C4 (amended): holding every other input fixed, the runtime produced by
`update_battery_properties` is monotonically non-increasing in
`load_current` and, separately, in `sleep_current`, provided the two
values select the same discharge mode (so the same reference curve and
temperature factor apply); crossing a discharge-mode boundary can select a
different reference curve and strictly increase the runtime. -/
theorem c4_monotone_same_mode :
    (∀ (curves : BType → Mode → List (ℚ × ℚ)) (bt : BType)
        (cap temp dur sleep v1 v2 f : ℚ),
      0 ≤ cap → 0 ≤ dur → dur ≤ 86400 → 0 ≤ sleep → 0 ≤ v1 → v1 ≤ v2 → 0 ≤ f →
      (GenApp.update_battery_properties curves
          (GenApp.mkBattery bt cap temp v1 dur sleep)).1.current_discharge_mode =
        (GenApp.update_battery_properties curves
          (GenApp.mkBattery bt cap temp v2 dur sleep)).1.current_discharge_mode →
      (GenApp.update_battery_properties curves
          (GenApp.mkBattery bt cap temp v1 dur sleep)).1.temperature_factor = some f →
      ∃ r1 r2,
        (GenApp.update_battery_properties curves
          (GenApp.mkBattery bt cap temp v1 dur sleep)).1.battery_runtime = some r1 ∧
        (GenApp.update_battery_properties curves
          (GenApp.mkBattery bt cap temp v2 dur sleep)).1.battery_runtime = some r2 ∧
        r2 ≤ r1) ∧
    (∀ (curves : BType → Mode → List (ℚ × ℚ)) (bt : BType)
        (cap temp load dur w1 w2 f : ℚ),
      0 ≤ cap → 0 ≤ load → 0 ≤ dur → dur ≤ 86400 → 0 ≤ w1 → w1 ≤ w2 → 0 ≤ f →
      (GenApp.update_battery_properties curves
          (GenApp.mkBattery bt cap temp load dur w1)).1.current_discharge_mode =
        (GenApp.update_battery_properties curves
          (GenApp.mkBattery bt cap temp load dur w2)).1.current_discharge_mode →
      (GenApp.update_battery_properties curves
          (GenApp.mkBattery bt cap temp load dur w1)).1.temperature_factor = some f →
      ∃ r1 r2,
        (GenApp.update_battery_properties curves
          (GenApp.mkBattery bt cap temp load dur w1)).1.battery_runtime = some r1 ∧
        (GenApp.update_battery_properties curves
          (GenApp.mkBattery bt cap temp load dur w2)).1.battery_runtime = some r2 ∧
        r2 ≤ r1) := by
  constructor
  · intro curves bt cap temp dur sleep v1 v2 f hcap hdur1 hdur2 hsleep hv1 hv12 hf hmode htf
    have hmode2 : gen_mode (GenApp.mkBattery bt cap temp v1 dur sleep) =
        gen_mode (GenApp.mkBattery bt cap temp v2 dur sleep) := by
      rw [gen_update_mode, gen_update_mode] at hmode
      exact Option.some.inj hmode
    have htf1 : gen_tf curves (GenApp.mkBattery bt cap temp v1 dur sleep) = some f :=
      (gen_update_tf curves _).symm.trans htf
    have htf2 : gen_tf curves (GenApp.mkBattery bt cap temp v2 dur sleep) = some f := by
      unfold gen_tf at htf1 ⊢
      rw [← hmode2]
      exact htf1
    have hb1 : 0 ≤ v1 * (dur / 3600) + sleep * ((86400 - dur) / 3600) :=
      add_nonneg (mul_nonneg hv1 (by positivity))
        (mul_nonneg hsleep (div_nonneg (by linarith) (by norm_num)))
    have h12 : v1 * (dur / 3600) + sleep * ((86400 - dur) / 3600) ≤
        v2 * (dur / 3600) + sleep * ((86400 - dur) / 3600) := by
      have hm : v1 * (dur / 3600) ≤ v2 * (dur / 3600) :=
        mul_le_mul_of_nonneg_right hv12 (by positivity)
      linarith
    obtain ⟨r1, r2, e1, e2, hle⟩ :=
      gen_runtime_antitone (chem_shelf bt) (mul_nonneg hf hcap) hb1 h12
    have hg1 : gen_rt (GenApp.mkBattery bt cap temp v1 dur sleep) f = some r1 := by
      simp only [gen_rt, GenApp.mkBattery]
      exact e1
    have hg2 : gen_rt (GenApp.mkBattery bt cap temp v2 dur sleep) f = some r2 := by
      simp only [gen_rt, GenApp.mkBattery]
      exact e2
    exact ⟨r1, r2, gen_update_runtime_of curves _ htf1 hg1,
      gen_update_runtime_of curves _ htf2 hg2, hle⟩
  · intro curves bt cap temp load dur w1 w2 f hcap hload hdur1 hdur2 hw1 hw12 hf hmode htf
    have hmode2 : gen_mode (GenApp.mkBattery bt cap temp load dur w1) =
        gen_mode (GenApp.mkBattery bt cap temp load dur w2) := by
      rw [gen_update_mode, gen_update_mode] at hmode
      exact Option.some.inj hmode
    have htf1 : gen_tf curves (GenApp.mkBattery bt cap temp load dur w1) = some f :=
      (gen_update_tf curves _).symm.trans htf
    have htf2 : gen_tf curves (GenApp.mkBattery bt cap temp load dur w2) = some f := by
      unfold gen_tf at htf1 ⊢
      rw [← hmode2]
      exact htf1
    have hb1 : 0 ≤ load * (dur / 3600) + w1 * ((86400 - dur) / 3600) :=
      add_nonneg (mul_nonneg hload (by positivity))
        (mul_nonneg hw1 (div_nonneg (by linarith) (by norm_num)))
    have h12 : load * (dur / 3600) + w1 * ((86400 - dur) / 3600) ≤
        load * (dur / 3600) + w2 * ((86400 - dur) / 3600) := by
      have hm : w1 * ((86400 - dur) / 3600) ≤ w2 * ((86400 - dur) / 3600) :=
        mul_le_mul_of_nonneg_right hw12 (div_nonneg (by linarith) (by norm_num))
      linarith
    obtain ⟨r1, r2, e1, e2, hle⟩ :=
      gen_runtime_antitone (chem_shelf bt) (mul_nonneg hf hcap) hb1 h12
    have hg1 : gen_rt (GenApp.mkBattery bt cap temp load dur w1) f = some r1 := by
      simp only [gen_rt, GenApp.mkBattery]
      exact e1
    have hg2 : gen_rt (GenApp.mkBattery bt cap temp load dur w2) f = some r2 := by
      simp only [gen_rt, GenApp.mkBattery]
      exact e2
    exact ⟨r1, r2, gen_update_runtime_of curves _ htf1 hg1,
      gen_update_runtime_of curves _ htf2 hg2, hle⟩

theorem pyRound_240 : pyRound 3 (240:ℚ) = 240 := by
  have h := pyRound_int 3 240
  norm_num at h
  exact h

theorem pyRound_300 : pyRound 3 (300:ℚ) = 300 := by
  have h := pyRound_int 3 300
  norm_num at h
  exact h

theorem pyRound_9125 : pyRound 2 (9125:ℚ) = 9125 := by
  have h := pyRound_int 2 9125
  norm_num at h
  exact h

/-- C4 counterexample: with the spec-conforming curve family `cexCurves`,
raising the load current from 240 mA to 300 mA (capacity 10⁹ mAh,
temperature 20 °C, always-on load, sleep 0 mA) crosses the Medium/High
discharge-mode boundary, switches the reference curve, and the runtime
increases from 0 to 9125 days — refuting "monotonically non-increasing in
load_current". -/
theorem c4_counterexample :
    (0:ℚ) ≤ 240 ∧ (240:ℚ) ≤ 300 ∧
    (GenApp.update_battery_properties cexCurves
      (GenApp.mkBattery BType.LithiumMetal 1000000000 20 240 86400 0)).1.battery_runtime =
        some 0 ∧
    (GenApp.update_battery_properties cexCurves
      (GenApp.mkBattery BType.LithiumMetal 1000000000 20 300 86400 0)).1.battery_runtime =
        some 9125 ∧
    ¬ ((9125:ℚ) ≤ (0:ℚ)) := by
  have hm1 : gen_mode (GenApp.mkBattery BType.LithiumMetal 1000000000 20 240 86400 0) =
      Mode.Medium := by
    unfold gen_mode gen_avg
    simp only [GenApp.mkBattery]
    norm_num [pyRound_240]
  have hm2 : gen_mode (GenApp.mkBattery BType.LithiumMetal 1000000000 20 300 86400 0) =
      Mode.High := by
    unfold gen_mode gen_avg
    simp only [GenApp.mkBattery]
    norm_num [pyRound_300]
  have htf1 : gen_tf cexCurves
      (GenApp.mkBattery BType.LithiumMetal 1000000000 20 240 86400 0) = some 0 := by
    unfold gen_tf
    rw [hm1]
    unfold GenApp.calculate_temperature_factor
    simp only [GenApp.mkBattery, cexCurves, chem_min, chem_max]
    norm_num [interp_loop]
  have htf2 : gen_tf cexCurves
      (GenApp.mkBattery BType.LithiumMetal 1000000000 20 300 86400 0) = some 1 := by
    unfold gen_tf
    rw [hm2]
    unfold GenApp.calculate_temperature_factor
    simp only [GenApp.mkBattery, cexCurves, chem_min, chem_max]
    norm_num [interp_loop]
  have hrt1 : gen_rt (GenApp.mkBattery BType.LithiumMetal 1000000000 20 240 86400 0) 0 =
      some 0 := by
    simp [gen_rt, GenApp.calculate_runtime, GenApp.mkBattery]
  have hrt2 : gen_rt (GenApp.mkBattery BType.LithiumMetal 1000000000 20 300 86400 0) 1 =
      some 9125 := by
    simp only [gen_rt, GenApp.calculate_runtime, GenApp.mkBattery, chem_shelf]
    norm_num [pyRound_9125]
  refine ⟨by norm_num, by norm_num, ?_, ?_, by norm_num⟩
  · exact gen_update_runtime_of cexCurves _ htf1 hrt1
  · exact gen_update_runtime_of cexCurves _ htf2 hrt2

theorem c4_witness :
    ∃ r1 r2,
      (GenApp.update_battery_properties constCurves
        (GenApp.mkBattery BType.LithiumMetal 100 20 1 86400 0)).1.battery_runtime = some r1 ∧
      (GenApp.update_battery_properties constCurves
        (GenApp.mkBattery BType.LithiumMetal 100 20 2 86400 0)).1.battery_runtime = some r2 ∧
      r2 ≤ r1 :=
  c4_monotone_same_mode.1 constCurves BType.LithiumMetal 100 20 86400 0 1 2 1
    (by norm_num) (by norm_num) (by norm_num) (by norm_num) (by norm_num) (by norm_num)
    (by norm_num)
    (by
      rw [gen_update_mode, gen_update_mode]
      have h1 : gen_mode (GenApp.mkBattery BType.LithiumMetal 100 20 1 86400 0) =
          Mode.Low := by
        unfold gen_mode gen_avg
        simp only [GenApp.mkBattery]
        have hp : pyRound 3 (1:ℚ) = 1 := by
          have h := pyRound_int 3 1
          norm_num at h
          exact h
        norm_num [hp]
      have h2 : gen_mode (GenApp.mkBattery BType.LithiumMetal 100 20 2 86400 0) =
          Mode.Low := by
        unfold gen_mode gen_avg
        simp only [GenApp.mkBattery]
        have hp : pyRound 3 (2:ℚ) = 2 := by
          have h := pyRound_int 3 2
          norm_num at h
          exact h
        norm_num [hp]
      rw [h1, h2])
    (by
      rw [gen_update_tf]
      exact gen_tf_const_one 100 20 1 86400 0 (by norm_num) (by norm_num))

theorem c3_witness :
    GenApp.calculate_runtime 36500 0 0 0 86400 (1/100) 25 = some 9125 ∧
    GenApp.calculate_runtime 14600 0 0 0 86400 (1/100) 10 = some 3650 ∧
    LiApp.calculate_runtime 36500 0 0 0 86400 (1/100) 25 = some 9125 :=
  ⟨c3_shelf_clamp_exact.1 36500 0 0 0 86400 (by norm_num) (by norm_num),
   c3_shelf_clamp_exact.2.1 14600 0 0 0 86400 (by norm_num) (by norm_num),
   c3_shelf_clamp_exact.2.2 36500 0 0 0 86400 (by norm_num) (by norm_num)⟩
